import Mathlib

/-!
Verification of the expression-engine binding layer
(`src/GafferBindings/ExpressionBinding.cpp`) against its specification.

The file under `src/` is the cross-runtime adaptation shim: the
`EngineWrapper` class that dispatches the three Engine phases
(parse / execute / apply) to an implementation living in an embedded
Python interpreter, plus the host-level `setExpression` / `getExpression` /
`languages` bindings and the static registry bindings.  The core
`Gaffer::Expression` class and the engine registry live outside the
fragment; where a claim depends on them they are modelled from the
specification and explicitly marked as such.

Modelling conventions:
  * A Python-side engine implementation is a record of optional method
    overrides (`methodOverride` returning a null object in C++ becomes
    `none`).  Each override is a function that may raise a Python
    exception (`Except PyExc`) and may have arbitrary effects on an
    abstract interpreter world `W` (the world stands for everything a
    Python callable could touch: connector values, host state, the
    evaluation context's contents).
  * C++ exceptions thrown across the wrapper boundary are values of
    `CoreErr`; the wrapper functions return them in `Except` / `Option`
    rather than throwing.
  * `std::vector` in/out parameters become explicit list arguments and
    results; `boost::python::list` built by repeated `append` becomes a
    left fold that appends one element at a time.
-/

/-- A Python exception crossing the boundary (`boost::python::error_already_set`
with its associated error message). -/
structure PyExc where
  msg : String
deriving DecidableEq, Repr

/-- A core-side error (`IECore::Exception` carrying a message); this is the
only error kind the wrapper lets escape into the core. -/
inductive CoreErr where
  | exception (msg : String)
deriving DecidableEq, Repr

/-- Modelled from the spec: `translatePythonException` (defined in
`ExceptionAlgo`, outside the source fragment) converts the pending Python
exception into a core exception, preserving the original message. -/
def translatePythonException (e : PyExc) : CoreErr :=
  CoreErr.exception e.msg

/-- Message of the hard failure thrown when `parse` has no Python override. -/
def parseNotDefinedMsg : String := "Engine::parse() python method not defined"

/-- Message of the hard failure thrown when `execute` has no Python override. -/
def executeNotDefinedMsg : String := "Engine::execute() python method not defined"

/-- Message of the hard failure thrown when `apply` has no Python override. -/
def applyNotDefinedMsg : String := "Engine::apply() python method not defined"

/-- A Python engine implementation as seen through `EngineWrapper`:
`subclassed` is `isSubclassed()`, and each field holds the result of
`methodOverride` for the corresponding phase.  Type parameters:
`N` host nodes, `P` value plugs (connectors), `C` context-variable names,
`V` the object-vector result type of `execute`, `Ctx` evaluation contexts,
`W` the abstract interpreter world a Python callable may read and write. -/
structure EngineImpl (N P C V Ctx W : Type) where
  subclassed : Bool
  parseMethod : Option (N → String → W → Except PyExc (List P × List P × List C) × W)
  executeMethod : Option (Ctx → List P → W → Except PyExc V × W)
  applyMethod : Option (P → V → W → Except PyExc Unit × W)

/-- A `boost::python::list` built from a vector by the loop
`for it = v.begin(); it != v.end(); it++ \x7b l.append(*it); \x7d`. -/
def pyListOfVector {α : Type} (xs : List α) : List α :=
  xs.foldl (fun acc x => acc ++ [x]) []

namespace EngineWrapper

variable {N P C V Ctx W : Type}

/-- `EngineWrapper::parse`: if the implementation is subclassed and provides a
`parse` override, call it with fresh empty Python lists, then extend the
caller-supplied `inputs`, `outputs` and `contextVariables` vectors with the
lists' contents; a Python exception is translated at the boundary; when no
override exists the call fails hard.  The result pairs an optional error
with the final contents of the three in/out vectors, threaded through the
interpreter world. -/
def parse (e : EngineImpl N P C V Ctx W) (node : N) (expression : String)
    (inputs outputs : List P) (contextVariables : List C) (w : W) :
    (Option CoreErr × (List P × List P × List C)) × W :=
  if e.subclassed then
    match e.parseMethod with
    | some f =>
      match f node expression w with
      | (Except.ok (pyIns, pyOuts, pyCtx), w') =>
        ((none, (inputs ++ pyIns, outputs ++ pyOuts, contextVariables ++ pyCtx)), w')
      | (Except.error exc, w') =>
        ((some (translatePythonException exc), (inputs, outputs, contextVariables)), w')
    | none => ((some (CoreErr.exception parseNotDefinedMsg), (inputs, outputs, contextVariables)), w)
  else
    ((some (CoreErr.exception parseNotDefinedMsg), (inputs, outputs, contextVariables)), w)

/-- `EngineWrapper::execute`: if subclassed and an `execute` override exists,
build the Python list of proxy inputs (appending them in order) and call the
override with the context and that list; a Python exception is translated at
the boundary; with no override the call fails hard. -/
def execute (e : EngineImpl N P C V Ctx W) (context : Ctx) (proxyInputs : List P) (w : W) :
    Except CoreErr V × W :=
  if e.subclassed then
    match e.executeMethod with
    | some f =>
      match f context (pyListOfVector proxyInputs) w with
      | (Except.ok v, w') => (Except.ok v, w')
      | (Except.error exc, w') => (Except.error (translatePythonException exc), w')
    | none => (Except.error (CoreErr.exception executeNotDefinedMsg), w)
  else
    (Except.error (CoreErr.exception executeNotDefinedMsg), w)

/-- `EngineWrapper::apply`: if subclassed and an `apply` override exists, call
it on the plug and value; a Python exception is translated at the boundary;
with no override the call fails hard. -/
def applyPhase (e : EngineImpl N P C V Ctx W) (plug : P) (value : V) (w : W) :
    Option CoreErr × W :=
  if e.subclassed then
    match e.applyMethod with
    | some f =>
      match f plug value w with
      | (Except.ok _, w') => (none, w')
      | (Except.error exc, w') => (some (translatePythonException exc), w')
    | none => (some (CoreErr.exception applyNotDefinedMsg), w)
  else
    (some (CoreErr.exception applyNotDefinedMsg), w)

end EngineWrapper

/-!
## Engine registry and host orchestration

The registry (`Expression::Engine::registerEngine` / `registeredEngines`)
and the host's `Expression::setExpression` / `getExpression` /
`Expression::languages` are declared and called by the binding fragment but
defined outside it, so they are modelled from the spec below.
-/

/-- Modelled from the spec: the process-wide engine registry is a mapping
from language identifier to an engine factory, enumerated as a sequence of
`(languageId, factory)` entries. -/
def Registry (F : Type) : Type := List (String × F)

/-- Modelled from the spec: `register(languageId, factory)` stores the
factory for `languageId`, overwriting any previous registration (last
registration wins), so that duplicates among registered identifiers are
impossible. -/
def registerEngineCore {F : Type} (r : Registry F) (languageId : String) (factory : F) :
    Registry F :=
  (List.filter (fun p => p.1 ≠ languageId) r) ++ [(languageId, factory)]

/-- Modelled from the spec: `create(languageId)` looks up the stored factory,
failing (`none`, the `UnknownLanguage` case) when `languageId` was never
registered. -/
def createFactory {F : Type} (r : Registry F) (languageId : String) : Option F :=
  (List.find? (fun p => p.1 = languageId) r).map Prod.snd

/-- Modelled from the spec: `registeredEngines()` returns every registered
language identifier. -/
def registeredEnginesCore {F : Type} (r : Registry F) : List String :=
  r.map Prod.fst

/-- `EngineWrapper::registerEngine`: the static binding forwards to the core
registry registration (the `ExpressionEngineCreator` wrapping of the Python
callable is absorbed into the factory value). -/
def EngineWrapper.registerEngine {F : Type} (r : Registry F) (engineType : String)
    (creator : F) : Registry F :=
  registerEngineCore r engineType creator

/-- `EngineWrapper::registeredEngines`: the static binding obtains the vector
of engine types from the core registry and copies it element by element into
a Python list, returned as a tuple. -/
def EngineWrapper.registeredEngines {F : Type} (r : Registry F) : List String :=
  pyListOfVector (registeredEnginesCore r)

/-- Modelled from the spec: `Expression::languages` forwards to
`registeredEngines()`. -/
def Expression.languagesCore {F : Type} (r : Registry F) : List String :=
  registeredEnginesCore r

/-- The free function `languages()` bound as the static `languages` method:
it obtains the vector from `Expression::languages` and copies it element by
element into a Python list, returned as a tuple. -/
def languagesBinding {F : Type} (r : Registry F) : List String :=
  pyListOfVector (Expression.languagesCore r)

/-- The default value the binding declares for `setExpression`'s `language`
argument. -/
def defaultLanguage : String := "python"

/-- The host node's expression state: the `(text, language)` pair it owns,
the dependency collections discovered by the last successful parse, and
whether that parse succeeded. -/
structure ExpressionState (P C : Type) where
  text : String
  language : String
  inputs : List P
  outputs : List P
  contextVariables : List C
  parsedOK : Bool

/-- Modelled from the spec: `Expression::setExpression(text, language)`
replaces the stored text/language, creates a fresh Engine via the registry
and invokes `parse`.  With no registered factory it fails with
`UnknownLanguage` and installs nothing; on parse failure the host retains
the new text/language but has empty dependency sets; on success the
discovered dependency collections are stored. -/
def Expression.setExpressionCore {N P C V Ctx W : Type}
    (r : Registry (EngineImpl N P C V Ctx W)) (node : N)
    (text language : String) (w : W) :
    Except CoreErr (ExpressionState P C) × W :=
  match createFactory r language with
  | none => (Except.error (CoreErr.exception ("Failed to create engine for language " ++ language)), w)
  | some eng =>
    match EngineWrapper.parse eng node text [] [] [] w with
    | ((none, (ins, outs, cvs)), w') =>
      (Except.ok { text := text, language := language, inputs := ins, outputs := outs,
                   contextVariables := cvs, parsedOK := true }, w')
    | ((some _, _), w') =>
      (Except.ok { text := text, language := language, inputs := [], outputs := [],
                   contextVariables := [], parsedOK := false }, w')

/-- Modelled from the spec: `Expression::getExpression` is a pure accessor
returning the stored expression text and reporting the language through its
out-parameter. -/
def Expression.getExpressionCore {P C : Type} (e : ExpressionState P C) : String × String :=
  (e.text, e.language)

/-- The bound free function `setExpression`: releases the GIL and calls the
core `Expression::setExpression` (the GIL discipline itself is modelled
separately as an event trace; at the level of values the binding forwards
to the core). -/
def setExpressionBinding {N P C V Ctx W : Type}
    (r : Registry (EngineImpl N P C V Ctx W)) (node : N)
    (text language : String) (w : W) :
    Except CoreErr (ExpressionState P C) × W :=
  Expression.setExpressionCore r node text language w

/-- The bound free function `getExpression`: calls the core accessor and
packs `(expression, language)` into a Python tuple. -/
def getExpressionBinding {P C : Type} (e : ExpressionState P C) : String × String :=
  Expression.getExpressionCore e

/-- The binding declares `setExpression` with `arg( "language" ) = "python"`:
a call that omits the language argument is dispatched with the default value
`"python"` filled in. -/
def setExpressionCall {N P C V Ctx W : Type}
    (r : Registry (EngineImpl N P C V Ctx W)) (node : N)
    (text : String) (language : Option String) (w : W) :
    Except CoreErr (ExpressionState P C) × W :=
  setExpressionBinding r node text (language.getD defaultLanguage) w

/-!
## GIL event trace model

`setExpression`'s interaction with the shared interpreter lock is modelled
as a sequence of abstract events: `ScopedGILRelease` emits a release on
construction and a re-acquire on destruction, and the core's `parse`
invocation is an event of its own.
-/

/-- Events touching the shared interpreter lock during a binding call. -/
inductive GilEvent where
  | release
  | acquire
  | parseCall
deriving DecidableEq, Repr

/-- Modelled from the spec: the core `Expression::setExpression` invokes
`parse` on the freshly created engine. -/
def coreSetExpressionEvents : List GilEvent :=
  [GilEvent.parseCall]

/-- The bound `setExpression`: `ScopedGILRelease gilRelease` releases the
lock on entry, the core `setExpression` runs (invoking `parse`), and the
scoped object re-acquires the lock when it goes out of scope on return. -/
def setExpressionEvents : List GilEvent :=
  [GilEvent.release] ++ coreSetExpressionEvents ++ [GilEvent.acquire]

/-- The lock-held flag after one event. -/
def stepGil (held : Bool) : GilEvent → Bool
  | GilEvent.release => false
  | GilEvent.acquire => true
  | GilEvent.parseCall => held

/-- Whether, starting from lock state `held`, some `parseCall` event in the
trace is reached while the lock is still held. -/
def anyParseWhileHeld : Bool → List GilEvent → Bool
  | _, [] => false
  | held, ev :: rest =>
    (ev == GilEvent.parseCall && held) || anyParseWhileHeld (stepGil held ev) rest

/-!
## Test fixtures

Concrete engine implementations used to witness the theorems below.
-/

/-- A sample expression text. -/
def testText : String := "parent.p = 2 * context.getFrame()"

/-- An engine implementation that overrides none of the three phases. -/
def noneEngine : EngineImpl Nat Nat Nat Nat Nat Unit :=
  { subclassed := true, parseMethod := none, executeMethod := none, applyMethod := none }

/-- A sample Python error message raised from `parse`. -/
def parseBoomMsg : String := "SyntaxError: invalid syntax"

/-- A sample Python error message raised from `execute`. -/
def execBoomMsg : String := "ZeroDivisionError: division by zero"

/-- A sample Python error message raised from `apply`. -/
def applyBoomMsg : String := "TypeError: unsupported value"

/-- An engine implementation whose three phase overrides all raise Python
exceptions. -/
def raisingEngine : EngineImpl Nat Nat Nat Nat Nat Unit :=
  { subclassed := true,
    parseMethod := some (fun _ _ w => (Except.error ⟨parseBoomMsg⟩, w)),
    executeMethod := some (fun _ _ w => (Except.error ⟨execBoomMsg⟩, w)),
    applyMethod := some (fun _ _ w => (Except.error ⟨applyBoomMsg⟩, w)) }

/-- A stub engine whose `parse` succeeds, discovering one input, one output
and one context variable. -/
def stubEngine : EngineImpl Nat Nat Nat Nat Nat Unit :=
  { subclassed := true,
    parseMethod := some (fun _ _ w => (Except.ok ([1], [2], [3]), w)),
    executeMethod := none, applyMethod := none }

/-- A stub engine whose `parse` reports duplicated inputs and context
variables. -/
def dupEngine : EngineImpl Nat Nat Nat Nat Nat Unit :=
  { subclassed := true,
    parseMethod := some (fun _ _ w => (Except.ok ([1, 1], [2], [3, 3, 3]), w)),
    executeMethod := none, applyMethod := none }

/-- A registry holding `stubEngine` under the default language. -/
def testRegistry : Registry (EngineImpl Nat Nat Nat Nat Nat Unit) :=
  EngineWrapper.registerEngine [] defaultLanguage stubEngine

/-- An engine whose `execute` override is a pure function of the context and
inputs, with a numeric world. -/
def pureEngine : EngineImpl Nat Nat Nat Nat Nat Nat :=
  { subclassed := true, parseMethod := none,
    executeMethod := some (fun ctx ins w => (Except.ok (ctx + ins.length), w)),
    applyMethod := none }

/-!
## Helper lemmas
-/

/-- Folding append-of-singleton over a list rebuilds the list after the
accumulator. -/
theorem foldl_append_singleton {α : Type} (xs acc : List α) :
    xs.foldl (fun a x => a ++ [x]) acc = acc ++ xs := by
  induction xs generalizing acc with
  | nil => simp
  | cons y ys ih => simp [List.foldl, ih]

/-- Copying a vector into a Python list element by element preserves it. -/
theorem pyListOfVector_eq {α : Type} (xs : List α) : pyListOfVector xs = xs := by
  simp [pyListOfVector, foldl_append_singleton]

/-- Registering twice under the same identifier is the same as registering
the second factory once. -/
theorem registerEngineCore_idem {F : Type} (r : Registry F) (languageId : String)
    (f1 f2 : F) :
    registerEngineCore (registerEngineCore r languageId f1) languageId f2
      = registerEngineCore r languageId f2 := by
  unfold registerEngineCore
  simp [List.filter_append, List.filter_filter]

/-- Looking up `languageId` in a registry whose other entries all avoid
`languageId` finds the final entry. -/
theorem find?_filter_ne_append {F : Type} (languageId : String) (f : F)
    (l : List (String × F)) :
    List.find? (fun p => p.1 = languageId)
      (List.filter (fun p => p.1 ≠ languageId) l ++ [(languageId, f)])
      = some (languageId, f) := by
  induction l with
  | nil => simp
  | cons a l ih =>
    by_cases h : a.1 = languageId
    · simp [List.filter, h, ih]
    · simp [List.filter, h, List.find?, ih]

/-- `languageId` does not occur among the keys kept by filtering it out. -/
theorem count_keys_filter_ne {F : Type} (languageId : String) (l : List (String × F)) :
    ((List.filter (fun p => p.1 ≠ languageId) l).map Prod.fst).count languageId = 0 := by
  rw [List.count_eq_zero]
  intro hmem
  rcases List.mem_map.mp hmem with ⟨p, hp, hfst⟩
  rcases List.mem_filter.mp hp with ⟨_, hne⟩
  have hne' : p.1 ≠ languageId := by simpa using hne
  exact hne' hfst

/-!
## Claim theorems
-/

/-- C1: an Engine implementation that provides no override for `parse`,
`execute` or `apply` has the corresponding wrapper phase fail hard with an
`EngineNotImplemented` core exception (the `python method not defined`
message), leaving the in/out collections and the interpreter world
untouched, rather than silently doing nothing; this holds for each of the
three phases. -/
theorem unimplemented_phase_fails {N P C V Ctx W : Type}
    (e1 e2 e3 : EngineImpl N P C V Ctx W)
    (h1 : e1.parseMethod = none) (h2 : e2.executeMethod = none)
    (h3 : e3.applyMethod = none)
    (node : N) (expression : String) (ins outs : List P) (cvs : List C)
    (ctx : Ctx) (plug : P) (value : V) (w : W) :
    EngineWrapper.parse e1 node expression ins outs cvs w
      = ((some (CoreErr.exception parseNotDefinedMsg), (ins, outs, cvs)), w)
    ∧ EngineWrapper.execute e2 ctx ins w
      = (Except.error (CoreErr.exception executeNotDefinedMsg), w)
    ∧ EngineWrapper.applyPhase e3 plug value w
      = (some (CoreErr.exception applyNotDefinedMsg), w) := by
  refine ⟨?_, ?_, ?_⟩
  · cases hs : e1.subclassed <;> simp [EngineWrapper.parse, hs, h1]
  · cases hs : e2.subclassed <;> simp [EngineWrapper.execute, hs, h2]
  · cases hs : e3.subclassed <;> simp [EngineWrapper.applyPhase, hs, h3]

/-- Witness for C1 at the concrete engine `noneEngine`. -/
theorem unimplemented_phase_fails_witness :
    EngineWrapper.parse noneEngine 0 testText [] [] [] ()
      = ((some (CoreErr.exception parseNotDefinedMsg), ([], [], [])), ())
    ∧ EngineWrapper.execute noneEngine 0 [] ()
      = (Except.error (CoreErr.exception executeNotDefinedMsg), ())
    ∧ EngineWrapper.applyPhase noneEngine 0 0 ()
      = (some (CoreErr.exception applyNotDefinedMsg), ()) :=
  unimplemented_phase_fails noneEngine noneEngine noneEngine rfl rfl rfl
    0 testText [] [] [] 0 0 0 ()

/-- C2: a Python exception raised by the `parse`, `execute` or `apply`
override is translated at the boundary into a core exception carrying the
original message; the error the wrapper returns is a `CoreErr`, so no
Python-specific exception type escapes into the core from any phase. -/
theorem python_exception_translated {N P C V Ctx W : Type}
    (e1 e2 e3 : EngineImpl N P C V Ctx W)
    (f1 : N → String → W → Except PyExc (List P × List P × List C) × W)
    (f2 : Ctx → List P → W → Except PyExc V × W)
    (f3 : P → V → W → Except PyExc Unit × W)
    (hs1 : e1.subclassed = true) (hm1 : e1.parseMethod = some f1)
    (hs2 : e2.subclassed = true) (hm2 : e2.executeMethod = some f2)
    (hs3 : e3.subclassed = true) (hm3 : e3.applyMethod = some f3)
    (node : N) (expression : String) (ins outs : List P) (cvs : List C)
    (ctx : Ctx) (plug : P) (value : V)
    (exc1 exc2 exc3 : PyExc) (w1 w2 w3 w1' w2' w3' : W)
    (hr1 : f1 node expression w1 = (Except.error exc1, w1'))
    (hr2 : f2 ctx (pyListOfVector ins) w2 = (Except.error exc2, w2'))
    (hr3 : f3 plug value w3 = (Except.error exc3, w3')) :
    EngineWrapper.parse e1 node expression ins outs cvs w1
      = ((some (CoreErr.exception exc1.msg), (ins, outs, cvs)), w1')
    ∧ EngineWrapper.execute e2 ctx ins w2
      = (Except.error (CoreErr.exception exc2.msg), w2')
    ∧ EngineWrapper.applyPhase e3 plug value w3
      = (some (CoreErr.exception exc3.msg), w3') := by
  refine ⟨?_, ?_, ?_⟩
  · simp [EngineWrapper.parse, hs1, hm1, hr1, translatePythonException]
  · simp [EngineWrapper.execute, hs2, hm2, hr2, translatePythonException]
  · simp [EngineWrapper.applyPhase, hs3, hm3, hr3, translatePythonException]

/-- Witness for C2 at the concrete engine `raisingEngine`. -/
theorem python_exception_translated_witness :
    EngineWrapper.parse raisingEngine 0 testText [] [] [] ()
      = ((some (CoreErr.exception parseBoomMsg), ([], [], [])), ())
    ∧ EngineWrapper.execute raisingEngine 0 [] ()
      = (Except.error (CoreErr.exception execBoomMsg), ())
    ∧ EngineWrapper.applyPhase raisingEngine 0 0 ()
      = (some (CoreErr.exception applyBoomMsg), ()) :=
  python_exception_translated raisingEngine raisingEngine raisingEngine
    (fun _ _ w => (Except.error ⟨parseBoomMsg⟩, w))
    (fun _ _ w => (Except.error ⟨execBoomMsg⟩, w))
    (fun _ _ w => (Except.error ⟨applyBoomMsg⟩, w))
    rfl rfl rfl rfl rfl rfl
    0 testText [] [] [] 0 0 0
    ⟨parseBoomMsg⟩ ⟨execBoomMsg⟩ ⟨applyBoomMsg⟩ () () () () () ()
    rfl rfl rfl

/-- C9: when the Python `parse` override raises, the wrapper propagates the
translated error and returns the caller-supplied `inputs`, `outputs` and
`contextVariables` collections exactly as they were passed in: the
collections are extended only after the underlying call has succeeded. -/
theorem parse_failure_preserves_collections {N P C V Ctx W : Type}
    (e : EngineImpl N P C V Ctx W)
    (f : N → String → W → Except PyExc (List P × List P × List C) × W)
    (hs : e.subclassed = true) (hm : e.parseMethod = some f)
    (node : N) (expression : String) (ins outs : List P) (cvs : List C)
    (exc : PyExc) (w w' : W)
    (hr : f node expression w = (Except.error exc, w')) :
    EngineWrapper.parse e node expression ins outs cvs w
      = ((some (translatePythonException exc), (ins, outs, cvs)), w') := by
  simp [EngineWrapper.parse, hs, hm, hr]

/-- Witness for C9: `raisingEngine` leaves pre-populated collections intact. -/
theorem parse_failure_preserves_collections_witness :
    EngineWrapper.parse raisingEngine 0 testText [10] [11] [12] ()
      = ((some (translatePythonException ⟨parseBoomMsg⟩), ([10], [11], [12])), ()) :=
  parse_failure_preserves_collections raisingEngine
    (fun _ _ w => (Except.error ⟨parseBoomMsg⟩, w))
    rfl rfl 0 testText [10] [11] [12] ⟨parseBoomMsg⟩ () () rfl

/-- C10: when the Python `parse` override succeeds, the wrapper appends the
discovered inputs, outputs and context variables to the caller-supplied
collections after any pre-existing elements, in exactly the order the
implementation produced them, with no reordering and no removal of
duplicates (list append preserves both order and multiplicity). -/
theorem parse_success_appends_in_order {N P C V Ctx W : Type}
    (e : EngineImpl N P C V Ctx W)
    (f : N → String → W → Except PyExc (List P × List P × List C) × W)
    (hs : e.subclassed = true) (hm : e.parseMethod = some f)
    (node : N) (expression : String) (ins outs : List P) (cvs : List C)
    (pyIns pyOuts : List P) (pyCtx : List C) (w w' : W)
    (hr : f node expression w = (Except.ok (pyIns, pyOuts, pyCtx), w')) :
    EngineWrapper.parse e node expression ins outs cvs w
      = ((none, (ins ++ pyIns, outs ++ pyOuts, cvs ++ pyCtx)), w') := by
  simp [EngineWrapper.parse, hs, hm, hr]

/-- Witness for C10: `dupEngine` appends duplicated discoveries after the
pre-existing elements, duplicates preserved. -/
theorem parse_success_appends_in_order_witness :
    EngineWrapper.parse dupEngine 0 testText [9] [8] [3] ()
      = ((none, ([9, 1, 1], [8, 2], [3, 3, 3, 3])), ()) :=
  parse_success_appends_in_order dupEngine
    (fun _ _ w => (Except.ok ([1, 1], [2], [3, 3, 3]), w))
    rfl rfl 0 testText [9] [8] [3] [1, 1] [2] [3, 3, 3] () () rfl

/-- C3: when `language` names a registered engine, `getExpression` called
immediately after `setExpression(text, language)` returns exactly the pair
`(text, language)` — whether or not the parse performed by `setExpression`
succeeds. -/
theorem get_after_set_roundtrip {N P C V Ctx W : Type}
    (r : Registry (EngineImpl N P C V Ctx W)) (node : N) (text language : String)
    (eng : EngineImpl N P C V Ctx W)
    (hreg : createFactory r language = some eng) (w : W) :
    Except.map getExpressionBinding (setExpressionBinding r node text language w).1
      = Except.ok (text, language) := by
  unfold setExpressionBinding Expression.setExpressionCore
  rw [hreg]
  rcases hp : EngineWrapper.parse eng node text [] [] [] w with ⟨⟨err, ins, outs, cvs⟩, w'⟩
  cases err <;>
    simp [hp, Except.map, getExpressionBinding, Expression.getExpressionCore]

/-- Witness for C3 at the concrete registry `testRegistry`. -/
theorem get_after_set_roundtrip_witness :
    Except.map getExpressionBinding
        (setExpressionBinding testRegistry 0 testText defaultLanguage ()).1
      = Except.ok (testText, defaultLanguage) :=
  get_after_set_roundtrip testRegistry 0 testText defaultLanguage stubEngine rfl ()

/-- C4: when the `execute` override satisfies the purity contract — it does
not touch the interpreter world (which contains the connector values, the
host's state and the evaluation context's contents) and its result depends
only on the context and input values — the wrapper's `execute` is a pure
function of `(context, inputValues)`: it leaves the world unchanged and its
result is independent of the world it runs in. -/
theorem execute_pure {N P C V Ctx W : Type}
    (e : EngineImpl N P C V Ctx W)
    (f : Ctx → List P → W → Except PyExc V × W)
    (hm : e.executeMethod = some f)
    (hnw : ∀ ctx ins w, (f ctx ins w).2 = w)
    (hfn : ∀ ctx ins w w', (f ctx ins w).1 = (f ctx ins w').1)
    (ctx : Ctx) (ins : List P) (w w' : W) :
    (EngineWrapper.execute e ctx ins w).2 = w
    ∧ (EngineWrapper.execute e ctx ins w).1 = (EngineWrapper.execute e ctx ins w').1 := by
  constructor
  · cases hs : e.subclassed with
    | false => simp [EngineWrapper.execute, hs]
    | true =>
      have h2 := hnw ctx (pyListOfVector ins) w
      rcases hr : f ctx (pyListOfVector ins) w with ⟨res, w2⟩
      rw [hr] at h2
      cases res <;> simp [EngineWrapper.execute, hs, hm, hr, h2]
  · cases hs : e.subclassed with
    | false => simp [EngineWrapper.execute, hs]
    | true =>
      have h3 := hfn ctx (pyListOfVector ins) w w'
      rcases hr : f ctx (pyListOfVector ins) w with ⟨res, w2⟩
      rcases hr' : f ctx (pyListOfVector ins) w' with ⟨res', w2'⟩
      rw [hr, hr'] at h3
      cases h3
      cases res <;> simp [EngineWrapper.execute, hs, hm, hr, hr']

/-- Witness for C4 at the concrete engine `pureEngine`, run from two
different worlds. -/
theorem execute_pure_witness :
    (EngineWrapper.execute pureEngine 1 [2] 3).2 = 3
    ∧ (EngineWrapper.execute pureEngine 1 [2] 3).1
        = (EngineWrapper.execute pureEngine 1 [2] 4).1 :=
  execute_pure pureEngine (fun ctx ins w => (Except.ok (ctx + ins.length), w))
    rfl (fun _ _ _ => rfl) (fun _ _ _ _ => rfl) 1 [2] 3 4

/-- C5: in the bound `setExpression`, the `ScopedGILRelease` releases the
shared interpreter lock before the core's `setExpression` invokes `parse`:
whatever lock state the call starts in, no `parse` invocation in the trace
happens while the lock is held. -/
theorem gil_released_before_parse :
    ∀ held : Bool, anyParseWhileHeld held setExpressionEvents = false := by
  decide

/-- C6: after registering two factories in sequence under the same
`languageId`, `create(languageId)` yields exactly the second factory, and
`registeredEngines()` contains `languageId` exactly once. -/
theorem register_overwrite_last_wins {F : Type} (r : Registry F)
    (languageId : String) (f1 f2 : F) :
    createFactory
        (EngineWrapper.registerEngine
          (EngineWrapper.registerEngine r languageId f1) languageId f2) languageId
      = some f2
    ∧ (EngineWrapper.registeredEngines
        (EngineWrapper.registerEngine
          (EngineWrapper.registerEngine r languageId f1) languageId f2)).count languageId
      = 1 := by
  unfold EngineWrapper.registerEngine
  rw [registerEngineCore_idem]
  constructor
  · unfold createFactory registerEngineCore
    rw [find?_filter_ne_append]
    rfl
  · unfold EngineWrapper.registeredEngines registeredEnginesCore registerEngineCore
    rw [pyListOfVector_eq, List.map_append, List.count_append, count_keys_filter_ne]
    simp

/-- C7: the host-level `languages()` binding returns the same sequence of
language identifiers as the registry-level `registeredEngines()` binding,
for every registry state. -/
theorem languages_eq_registeredEngines {F : Type} (r : Registry F) :
    languagesBinding r = EngineWrapper.registeredEngines r := by
  unfold languagesBinding EngineWrapper.registeredEngines Expression.languagesCore
  rfl

/-- C8: `setExpression` declares the default `language` argument value
`"python"` (`defaultLanguage`); a call omitting the language behaves
identically to a call passing `defaultLanguage` explicitly. -/
theorem setExpression_default_language {N P C V Ctx W : Type}
    (r : Registry (EngineImpl N P C V Ctx W)) (node : N) (text : String) (w : W) :
    setExpressionCall r node text none w
      = setExpressionCall r node text (some defaultLanguage) w := by
  unfold setExpressionCall
  rfl
